import Mathlib

/-
Verification of the calorietracker repository: a shallow embedding of the
Estimation Gateway (src/app/api/analyze/route.ts, the POST handler) and of
the Meal Estimation Client (the handleSubmit flow of the page component),
together with theorems settling the specification claims about them.

JavaScript numbers are modelled as rationals; JSON values produced by
JSON.parse are modelled by the inductive type JsonVal below.  The external
estimation service, the network and the ambient clock are inputs of the
embedded functions, so every theorem quantifies over their behaviour.
-/

namespace CalorieTracker

/-- JSON values as produced by JSON.parse: null, booleans, numbers, strings,
arrays and objects.  Object fields are kept in an association list; keys are
assumed unique, as JSON.parse guarantees for its result. -/
inductive JsonVal where
  | jnull
  | jbool (b : Bool)
  | jnum (q : ℚ)
  | jstr (s : String)
  | jarr (elems : List JsonVal)
  | jobj (fields : List (String × JsonVal))

/-- Property access `v.k` on a parsed JSON value: a field lookup on objects,
`undefined` (modelled as `none`) on every other non-null value.  Access on
null throws in JavaScript and is handled separately at each access site. -/
def jsonGet (v : JsonVal) (k : String) : Option JsonVal :=
  match v with
  | .jobj fields => fields.lookup k
  | _ => none

/-- Decimal digit run to a natural number; the empty run counts as 0. -/
def digitsToNat (cs : List Char) : ℕ :=
  cs.foldl (fun acc c => acc * 10 + (c.toNat - 48)) 0

/-- Unsigned part of the JavaScript `Number(string)` coercion, on the
fragment of numeric literals relevant here: decimal digits with an optional
fractional part, at least one digit in total.  `none` models NaN. -/
def parseUnsignedNumber (cs : List Char) : Option ℚ :=
  let intPart := cs.takeWhile Char.isDigit
  let rest := cs.dropWhile Char.isDigit
  match rest with
  | [] => if intPart.isEmpty then none else some (digitsToNat intPart : ℚ)
  | c :: frac =>
    if c = '.' ∧ frac.all Char.isDigit ∧ ¬(intPart.isEmpty ∧ frac.isEmpty) then
      some ((digitsToNat intPart : ℚ) + (digitsToNat frac : ℚ) / (10 : ℚ) ^ frac.length)
    else none

/-- Model of the JavaScript `Number(string)` coercion on the fragment used
here: surrounding whitespace is trimmed, the empty string coerces to 0, an
optional sign precedes a decimal literal, and everything else is NaN
(`none`).  Exponent, hexadecimal and Infinity forms are outside the
fragment and coerce to `none`, which downstream `|| 0` turns into 0 exactly
as it turns NaN into 0. -/
def parseJsNumber (s : String) : Option ℚ :=
  match s.trim.toList with
  | [] => some 0
  | c :: rest =>
    if c = '-' then (parseUnsignedNumber rest).map Neg.neg
    else if c = '+' then parseUnsignedNumber rest
    else parseUnsignedNumber (c :: rest)

/-- Model of `Number(v)` on a JSON value, with NaN collapsed to 0 exactly as
the enclosing `|| 0` in the source does (NaN and 0 are both falsy, so
`Number(v) || 0` never distinguishes them).  Booleans coerce to 0 or 1,
null to 0, strings through the decimal parser, arrays through their single
element when they have one (JavaScript coerces an array through its joined
string), objects to NaN, hence 0. -/
def jsToNumber : JsonVal → ℚ
  | .jnull => 0
  | .jbool b => if b then 1 else 0
  | .jnum q => q
  | .jstr s => (parseJsNumber s).getD 0
  | .jarr [] => 0
  | .jarr [x] => jsToNumber x
  | .jarr (_ :: _ :: _) => 0
  | .jobj _ => 0

/-- Model of `Number(x) || 0` where `x` may be an absent property
(`undefined`, modelled as `none`, which coerces to NaN, hence 0). -/
def jsNumOrZero : Option JsonVal → ℚ
  | none => 0
  | some v => jsToNumber v

/-- JavaScript truthiness test `!x` on a possibly absent value, as used by
the gateway on the destructured `message` and `imageBase64` fields. -/
def jsFalsy : Option JsonVal → Bool
  | none => true
  | some .jnull => true
  | some (.jbool b) => !b
  | some (.jnum q) => decide (q = 0)
  | some (.jstr s) => s == ""
  | some (.jarr _) => false
  | some (.jobj _) => false

/-- Nullish coalescing `x ?? y` on a possibly absent value: `y` replaces
only `undefined` and null. -/
def jsCoalesce (x : Option JsonVal) (y : JsonVal) : JsonVal :=
  match x with
  | none => y
  | some .jnull => y
  | some v => v

/-- Test for the JSON null value, used to model the TypeError thrown by a
property access on null. -/
def isJsNull : JsonVal → Bool
  | .jnull => true
  | _ => false

/-- Aggregate nutrition record: route.ts and the page component share this
shape, named MacroBreakdown in the client source. -/
structure MacroBreakdown where
  kcal : ℚ
  protein : ℚ
  carbs : ℚ
  fat : ℚ

/-- Gateway, route.ts line 97: `Array.isArray(parsed.items) ? parsed.items
: []`.  A missing or non-array items field degrades to the empty list. -/
def parsedItems (parsed : JsonVal) : List JsonVal :=
  match jsonGet parsed "items" with
  | some (.jarr xs) => xs
  | _ => []

/-- Gateway, route.ts lines 103-106: the per-field coercion
`Number(item.f) || 0` applied when folding items into the total. -/
def itemMacro (item : JsonVal) (f : String) : ℚ :=
  jsNumOrZero (jsonGet item f)

/-- Gateway, route.ts lines 98-109: one step of the `items.reduce` fold. -/
def gatewayStep (acc : MacroBreakdown) (item : JsonVal) : MacroBreakdown :=
  { kcal := acc.kcal + itemMacro item "kcal"
    protein := acc.protein + itemMacro item "protein"
    carbs := acc.carbs + itemMacro item "carbs"
    fat := acc.fat + itemMacro item "fat" }

/-- Gateway, route.ts lines 98-109: the recomputed total, a reduce over the
parsed items starting from the zero record. -/
def gatewayTotal (items : List JsonVal) : MacroBreakdown :=
  items.foldl gatewayStep ⟨0, 0, 0, 0⟩

/-- Shape of the gateway success body, route.ts lines 111-118.  The
response also echoes the raw completion text in a `raw` field; no claim
concerns it and it carries no information beyond the parsed value, so it is
omitted here. -/
structure NormalizedEstimate where
  mealTitle : JsonVal
  items : List JsonVal
  notes : Option JsonVal
  confidence : Option ℚ
  total : MacroBreakdown

/-- Gateway, route.ts lines 97-118: the success body built from the request
body `b` and the JSON value `parsed` returned by the estimation service.
`mealTitle` is `parsed.mealTitle ?? mealLabel ?? "Meal"`, `items` is the
parsed items array passed through verbatim, `confidence` is kept only when
it is a number, and `total` is recomputed from the items. -/
def analyzeParsed (b parsed : JsonVal) : NormalizedEstimate :=
  { mealTitle :=
      jsCoalesce (jsonGet parsed "mealTitle")
        (jsCoalesce (jsonGet b "mealLabel") (.jstr "Meal"))
    items := parsedItems parsed
    notes := jsonGet parsed "notes"
    confidence :=
      match jsonGet parsed "confidence" with
      | some (.jnum q) => some q
      | _ => none
    total := gatewayTotal (parsedItems parsed) }

/-- Behaviour of the external estimation service and network on one call:
the call may fail (network or API error), return no content, return content
that is not valid JSON, or return content parsing to a JSON value.  The
first three are all caught by the try block of route.ts and mapped to the
same generic 500 response. -/
inductive Upstream where
  | failure
  | noContent
  | badJson
  | json (parsed : JsonVal)

/-- Result of one gateway request: a success body or an error body with an
HTTP status.  The `crash` case models the uncaught TypeError thrown at
route.ts line 48 when the decoded request body is JSON null, which escapes
the handler (the destructuring sits outside both try blocks). -/
inductive GatewayResult where
  | ok (r : NormalizedEstimate)
  | err (status : ℕ) (msg : String)
  | crash

/-- Gateway, route.ts POST handler.  `apiKey` is the OPENAI_API_KEY
environment value (`none` when unset; the source tests it for JavaScript
truthiness, so the empty string also counts as unconfigured).  `body` is
the result of `req.json()` (`none` when the request body is not valid
JSON).  `up` is the behaviour of the external service on this call.  The
success branch first reproduces the two property accesses that can throw
inside the try block: `parsed.items` on a null parse result, and
`item.kcal` on a null element of the items array, both caught and mapped to
the generic 500. -/
def POST (apiKey : Option String) (body : Option JsonVal) (up : Upstream) :
    GatewayResult :=
  if apiKey.getD "" = "" then
    .err 500 "OPENAI_API_KEY is not configured."
  else
    match body with
    | none => .err 400 "Invalid JSON payload."
    | some b =>
      if isJsNull b then
        .crash
      else if jsFalsy (jsonGet b "message") && jsFalsy (jsonGet b "imageBase64") then
        .err 400 "Provide an image or a description to analyze."
      else
        match up with
        | .json parsed =>
          if isJsNull parsed || (parsedItems parsed).any isJsNull then
            .err 500 "Unable to analyze meal right now."
          else
            .ok (analyzeParsed b parsed)
        | _ => .err 500 "Unable to analyze meal right now."

/-- Stated from the spec wording for the total claims: the element-wise sum
of the four macro fields over a list of items, each field read through the
coerce-with-default-zero accessor.  Compared with `gatewayTotal`, which is
the fold the source actually runs. -/
def specTotal (items : List JsonVal) : MacroBreakdown :=
  { kcal := (items.map (fun it => itemMacro it "kcal")).sum
    protein := (items.map (fun it => itemMacro it "protein")).sum
    carbs := (items.map (fun it => itemMacro it "carbs")).sum
    fat := (items.map (fun it => itemMacro it "fat")).sum }

/-- Check that an item object carries a JSON number under the field `f`. -/
def hasNumField (item : JsonVal) (f : String) : Bool :=
  match jsonGet item f with
  | some (.jnum _) => true
  | _ => false

/-- Check that an item carries JSON numbers under all four macro fields, as
the normalized-estimate wording promises of every returned item. -/
def itemNumericShape (item : JsonVal) : Bool :=
  hasNumField item "kcal" && hasNumField item "protein" &&
    hasNumField item "carbs" && hasNumField item "fat"

/-- Projection used to observe the total of a gateway result. -/
def gatewayTotalOf : GatewayResult → Option MacroBreakdown
  | .ok r => some r.total
  | _ => none

/- Client side: the page component of the repository. -/

/-- Client MealItem shape: the client declares items with the four macro
fields already numeric. -/
structure MealItem where
  name : String
  quantity : String
  kcal : ℚ
  protein : ℚ
  carbs : ℚ
  fat : ℚ

/-- Client MealEntry shape: one logged meal occurrence. -/
structure MealEntry where
  id : String
  title : String
  time : String
  macros : MacroBreakdown
  items : List MealItem
  image : Option String
  notes : Option String
  confidence : Option ℚ

/-- Client AnalyzeResponse shape: the decoded gateway success body as the
client types it.  Optional fields model `undefined` (and JSON null, which
the nullish operators treat identically) as `none`. -/
structure AnalyzeResponse where
  mealTitle : String
  items : Option (List MealItem)
  notes : Option String
  confidence : Option ℚ
  total : Option MacroBreakdown

/-- Speaker of one chat transcript line. -/
inductive Role where
  | assistant
  | user
deriving DecidableEq

/-- One chat transcript line. -/
structure ChatMsg where
  role : Role
  text : String
deriving DecidableEq

/-- Client component state: the useState cells of the page component that
the submission flow reads or writes.  The day log is the `historyByDate`
record, modelled as a total function from date strings to entry lists; a
date with no entries maps to the empty list, matching the
`prev[selectedDate] ?? []` reads of the source. -/
structure ClientState where
  selectedDate : String
  historyByDate : String → List MealEntry
  chat : List ChatMsg
  message : String
  imagePreview : Option String
  isSending : Bool
  error : Option String

/-- Client guessMealLabel: the meal label derived from the hour of day. -/
def guessMealLabel (hour : ℕ) : String :=
  if hour < 11 then "Breakfast"
  else if hour < 15 then "Lunch"
  else if hour < 18 then "Snack"
  else "Dinner"

/-- Client computeTotals, modelling `x || 0` on an already numeric field:
the identity except that it sends 0 to 0 (NaN, the only other falsy number,
has no counterpart among the rationals). -/
def jsOrZero (x : ℚ) : ℚ :=
  if x = 0 then 0 else x

/-- Client computeTotals: the fallback element-wise sum over the response
items, used only when the gateway total is absent. -/
def computeTotals (items : List MealItem) : MacroBreakdown :=
  items.foldl
    (fun acc item =>
      { kcal := acc.kcal + jsOrZero item.kcal
        protein := acc.protein + jsOrZero item.protein
        carbs := acc.carbs + jsOrZero item.carbs
        fat := acc.fat + jsOrZero item.fat })
    ⟨0, 0, 0, 0⟩

/-- Stated from the spec wording for the client-side sum claims: the plain
element-wise sum of the four fields over a list of client items. -/
def itemsMacroSum (items : List MealItem) : MacroBreakdown :=
  { kcal := (items.map MealItem.kcal).sum
    protein := (items.map MealItem.protein).sum
    carbs := (items.map MealItem.carbs).sum
    fat := (items.map MealItem.fat).sum }

/-- Client totals memo: the day totals, a reduce over the entries logged
under the selected date starting from the zero record. -/
def totals (entries : List MealEntry) : MacroBreakdown :=
  entries.foldl
    (fun acc e =>
      { kcal := acc.kcal + e.macros.kcal
        protein := acc.protein + e.macros.protein
        carbs := acc.carbs + e.macros.carbs
        fat := acc.fat + e.macros.fat })
    ⟨0, 0, 0, 0⟩

/-- Model of `Math.round`: nearest integer, ties toward positive
infinity. -/
def jsRound (q : ℚ) : ℤ :=
  ⌊q + 1 / 2⌋

/-- Model of `toFixed(0)`: nearest integer, ties away from zero. -/
def jsToFixedZero (q : ℚ) : ℤ :=
  if 0 ≤ q then ⌊q + 1 / 2⌋ else -⌊-q + 1 / 2⌋

/-- Client renderAssistantSummary: the transcript summary line built from a
new entry. -/
def renderAssistantSummary (entry : MealEntry) : String :=
  let macroLine :=
    toString (jsRound entry.macros.kcal) ++ " kcal — P" ++
      toString (jsRound entry.macros.protein) ++ "g C" ++
      toString (jsRound entry.macros.carbs) ++ "g F" ++
      toString (jsRound entry.macros.fat) ++ "g"
  let foods :=
    if entry.items.length > 0 then
      String.intercalate ", "
        (entry.items.map (fun i => i.name ++ " (" ++ i.quantity ++ ")"))
    else entry.title
  let conf :=
    match entry.confidence with
    | some c => "Confidence: " ++ toString (jsToFixedZero (c * 100)) ++ "%"
    | none => "Confidence: n/a"
  entry.title ++ ": " ++ foods ++ "\n" ++ macroLine ++ "\n" ++ conf

/-- Outcome of the fetch to the gateway as the client observes it inside
its try block: a rejected fetch or body decode (`fetchError`, carrying the
message of the thrown Error), a non-ok HTTP response (`httpError`, carrying
the `error` field of the decoded error body when one is present), or a
decoded success body. -/
inductive FetchOutcome where
  | fetchError (msg : String)
  | httpError (errField : Option String)
  | success (data : AnalyzeResponse)

/-- Client, the message thrown for a non-ok response: `err.error || "AI
analysis failed"`. -/
def httpErrMsg (errField : Option String) : String :=
  match errField with
  | some e => if e = "" then "AI analysis failed" else e
  | none => "AI analysis failed"

/-- Request body the client sends to the gateway. -/
structure GatewayRequest where
  message : String
  imageBase64 : Option String
  mealLabel : String

/-- Result of one handleSubmit run: the updated component state, whether
the gateway was called at all, and the request body sent when it was. -/
structure SubmitResult where
  state : ClientState
  calledGateway : Bool
  request : Option GatewayRequest

/-- Client, the optimistic user transcript line: `message || "(photo
only)"`. -/
def userEcho (s : ClientState) : ChatMsg :=
  ⟨.user, if s.message = "" then "(photo only)" else s.message⟩

/-- Client, the MealEntry built on a success response: title falls back to
the derived label when the reported title is the empty string, macros take
the reported total when present and otherwise the computed sum over the
reported items, and the image is the preview that was submitted. -/
def submittedEntry (s : ClientState) (data : AnalyzeResponse) (hour : ℕ)
    (freshId nowTime : String) : MealEntry :=
  { id := freshId
    title := if data.mealTitle = "" then guessMealLabel hour else data.mealTitle
    time := nowTime
    macros := data.total.getD (computeTotals (data.items.getD []))
    items := data.items.getD []
    image := s.imagePreview
    notes := data.notes
    confidence := data.confidence }

/-- Client handleSubmit.  `hour` is the hour of day read from the clock,
`freshId` the generated identifier and `nowTime` the formatted timestamp.
When both the description and the image preview are empty or absent the
function returns early: it only sets the error state, appends nothing to
the transcript and issues no request.  Otherwise it clears the error, marks
the send in flight, appends the optimistic user line, performs the fetch,
and on its outcome either appends the new entry under the selected date and
adds the summary line, or records the failure message as both the error
state and a transcript line; the finally block then clears the in-flight
flag, the description draft and the image preview. -/
def handleSubmit (s : ClientState) (outcome : FetchOutcome) (hour : ℕ)
    (freshId nowTime : String) : SubmitResult :=
  if s.message = "" ∧ s.imagePreview.getD "" = "" then
    { state := { s with error := some "Add a photo or describe your meal first." }
      calledGateway := false
      request := none }
  else
    let s1 : ClientState :=
      { s with
        error := none
        isSending := true
        chat := s.chat ++ [userEcho s] }
    let s2 : ClientState :=
      match outcome with
      | .fetchError msg =>
        { s1 with error := some msg, chat := s1.chat ++ [⟨.assistant, msg⟩] }
      | .httpError errField =>
        { s1 with
          error := some (httpErrMsg errField)
          chat := s1.chat ++ [⟨.assistant, httpErrMsg errField⟩] }
      | .success data =>
        let entry := submittedEntry s data hour freshId nowTime
        { s1 with
          historyByDate := fun d =>
            if d = s.selectedDate then s.historyByDate s.selectedDate ++ [entry]
            else s.historyByDate d
          chat := s1.chat ++ [⟨.assistant, renderAssistantSummary entry⟩] }
    { state := { s2 with isSending := false, message := "", imagePreview := none }
      calledGateway := true
      request := some ⟨s.message, s.imagePreview, guessMealLabel hour⟩ }

/-- Projection used to observe the macros of the most recently logged entry
of a date after a submission. -/
def lastEntryMacros (res : SubmitResult) (d : String) : Option MacroBreakdown :=
  (res.state.historyByDate d).getLast?.map MealEntry.macros

/- Concrete inputs used by the claim theorems, their witnesses and the
counterexamples. -/

/-- Request body of the round-trip example: a plain text description. -/
def c1Body : JsonVal := .jobj [("message", .jstr "rice and chicken")]

/-- Item list of the round-trip example from the spec: Rice and Chicken. -/
def c1Items : List JsonVal :=
  [ .jobj [("name", .jstr "Rice"), ("quantity", .jstr "1 cup"),
      ("kcal", .jnum 200), ("protein", .jnum 4), ("carbs", .jnum 45), ("fat", .jnum 1)],
    .jobj [("name", .jstr "Chicken"), ("quantity", .jstr "100g"),
      ("kcal", .jnum 165), ("protein", .jnum 31), ("carbs", .jnum 0), ("fat", .jnum 4)] ]

/-- Upstream parse result of the round-trip example, carrying a disagreeing
upstream total that the gateway must discard. -/
def c1Parsed : JsonVal :=
  .jobj [("mealTitle", .jstr "Rice and chicken"),
    ("items", .jarr c1Items),
    ("total", .jobj [("kcal", .jnum 999), ("protein", .jnum 999),
      ("carbs", .jnum 999), ("fat", .jnum 999)])]

/-- Request body used by the malformed-item examples. -/
def c2Body : JsonVal := .jobj [("message", .jstr "mystery stew")]

/-- Item whose kcal field is a non-numeric string. -/
def c2Item : JsonVal :=
  .jobj [("name", .jstr "Mystery"), ("quantity", .jstr "1 bowl"),
    ("kcal", .jstr "unknown"), ("protein", .jnum 2), ("carbs", .jnum 3), ("fat", .jnum 4)]

/-- Upstream parse result carrying the malformed item. -/
def c2Parsed : JsonVal := .jobj [("items", .jarr [c2Item])]

/-- Upstream parse result whose items field is not a sequence. -/
def c2BadItemsParsed : JsonVal :=
  .jobj [("mealTitle", .jstr "Toast"), ("items", .jstr "not a list")]

/-- Request body used by the negative-total counterexample. -/
def c5Body : JsonVal := .jobj [("message", .jstr "negative calories")]

/-- Upstream parse result reporting a negative kcal value, which the
coercion passes through unchanged. -/
def c5Parsed : JsonVal :=
  .jobj [("items", .jarr [.jobj [("name", .jstr "Void"), ("quantity", .jstr "1"),
    ("kcal", .jnum (-5)), ("protein", .jnum 1), ("carbs", .jnum 1), ("fat", .jnum 1)]])]

/-- Client state with a nonempty description draft and no image. -/
def wState : ClientState :=
  { selectedDate := "2026-10-11"
    historyByDate := fun _ => []
    chat := [⟨.assistant, "hello"⟩]
    message := "grilled chicken"
    imagePreview := none
    isSending := false
    error := none }

/-- Client state with an empty draft: no description and no image. -/
def emptyDraftState : ClientState :=
  { selectedDate := "2026-10-11"
    historyByDate := fun _ => []
    chat := [⟨.assistant, "hello"⟩]
    message := ""
    imagePreview := none
    isSending := false
    error := none }

/-- An already logged entry used to seed a day log. -/
def priorEntry : MealEntry :=
  { id := "id-0"
    title := "Breakfast"
    time := "08:00"
    macros := ⟨300, 10, 40, 8⟩
    items := []
    image := none
    notes := none
    confidence := none }

/-- Client state whose selected date already holds one entry. -/
def seededState : ClientState :=
  { selectedDate := "2026-10-11"
    historyByDate := fun d => if d = "2026-10-11" then [priorEntry] else []
    chat := [⟨.assistant, "hello"⟩]
    message := "salmon bowl"
    imagePreview := some "data:image/png;base64,AAAA"
    isSending := false
    error := none }

/-- Gateway success body carrying an explicit total. -/
def wTotalData : AnalyzeResponse :=
  { mealTitle := "Chicken bowl"
    items := some []
    notes := none
    confidence := none
    total := some ⟨300, 30, 10, 9⟩ }

/-- Gateway success body with an empty item list and no total. -/
def emptyItemsData : AnalyzeResponse :=
  { mealTitle := "Snack"
    items := some []
    notes := none
    confidence := none
    total := none }

/- General lemmas about the embedded operations. -/

/-- Closed form of the gateway reduce: folding from any accumulator adds the
element-wise field sums to it. -/
theorem gatewayTotal_go (items : List JsonVal) (acc : MacroBreakdown) :
    items.foldl gatewayStep acc =
      ⟨acc.kcal + (items.map (fun it => itemMacro it "kcal")).sum,
        acc.protein + (items.map (fun it => itemMacro it "protein")).sum,
        acc.carbs + (items.map (fun it => itemMacro it "carbs")).sum,
        acc.fat + (items.map (fun it => itemMacro it "fat")).sum⟩ := by
  induction items generalizing acc with
  | nil => simp
  | cons it rest ih =>
    simp only [List.foldl_cons, List.map_cons, List.sum_cons, ih, gatewayStep]
    simp [MacroBreakdown.mk.injEq]
    refine ⟨by ring, by ring, by ring, by ring⟩

/-- The reduce the gateway runs agrees with the element-wise sum stated by
the spec. -/
theorem gatewayTotal_eq_specTotal (items : List JsonVal) :
    gatewayTotal items = specTotal items := by
  simp [gatewayTotal, gatewayTotal_go, specTotal]

/-- Inversion of the gateway handler: a success result can only arise from a
decoded body and a JSON-parsed upstream completion, and then carries exactly
the normalized estimate built from them. -/
theorem POST_eq_ok {apiKey : Option String} {body : Option JsonVal} {up : Upstream}
    {r : NormalizedEstimate} (h : POST apiKey body up = .ok r) :
    ∃ b parsed, body = some b ∧ up = .json parsed ∧ r = analyzeParsed b parsed := by
  by_cases hk : apiKey.getD "" = ""
  · simp [POST, hk] at h
  · cases body with
    | none => simp [POST, hk] at h
    | some b =>
      by_cases hn : isJsNull b
      · simp [POST, hk, hn] at h
      · by_cases hf : (jsFalsy (jsonGet b "message") && jsFalsy (jsonGet b "imageBase64")) = true
        · simp [POST, hk, hn, hf] at h
        · cases up with
          | json parsed =>
            by_cases hthrow : (isJsNull parsed || (parsedItems parsed).any isJsNull) = true
            · simp [POST, hk, hn, hf, hthrow] at h
            · simp [POST, hk, hn, hf, hthrow] at h
              exact ⟨b, parsed, rfl, rfl, h.symm⟩
          | failure => simp [POST, hk, hn, hf] at h
          | noContent => simp [POST, hk, hn, hf] at h
          | badJson => simp [POST, hk, hn, hf] at h

/-- On values the rationals can represent, the client-side `x || 0` guard is
the identity. -/
theorem jsOrZero_eq (x : ℚ) : jsOrZero x = x := by
  unfold jsOrZero
  split <;> simp_all

/-- Closed form of the client computeTotals fold. -/
theorem computeTotals_go (items : List MealItem) (acc : MacroBreakdown) :
    items.foldl
        (fun acc item =>
          ({ kcal := acc.kcal + jsOrZero item.kcal
             protein := acc.protein + jsOrZero item.protein
             carbs := acc.carbs + jsOrZero item.carbs
             fat := acc.fat + jsOrZero item.fat } : MacroBreakdown))
        acc =
      ⟨acc.kcal + (items.map MealItem.kcal).sum,
        acc.protein + (items.map MealItem.protein).sum,
        acc.carbs + (items.map MealItem.carbs).sum,
        acc.fat + (items.map MealItem.fat).sum⟩ := by
  induction items generalizing acc with
  | nil => simp
  | cons it rest ih =>
    rw [List.foldl_cons, ih]
    simp only [List.map_cons, List.sum_cons, jsOrZero_eq]
    rw [MacroBreakdown.mk.injEq]
    refine ⟨by ring, by ring, by ring, by ring⟩

/-- The client fallback fold agrees with the plain element-wise sum. -/
theorem computeTotals_eq_itemsMacroSum (items : List MealItem) :
    computeTotals items = itemsMacroSum items := by
  simp [computeTotals, computeTotals_go, itemsMacroSum]

/-- Closed form of the client day-totals fold. -/
theorem totals_go (entries : List MealEntry) (acc : MacroBreakdown) :
    entries.foldl
        (fun acc e =>
          ({ kcal := acc.kcal + e.macros.kcal
             protein := acc.protein + e.macros.protein
             carbs := acc.carbs + e.macros.carbs
             fat := acc.fat + e.macros.fat } : MacroBreakdown))
        acc =
      ⟨acc.kcal + (entries.map (fun e => e.macros.kcal)).sum,
        acc.protein + (entries.map (fun e => e.macros.protein)).sum,
        acc.carbs + (entries.map (fun e => e.macros.carbs)).sum,
        acc.fat + (entries.map (fun e => e.macros.fat)).sum⟩ := by
  induction entries generalizing acc with
  | nil => simp
  | cons e rest ih =>
    simp only [List.foldl_cons, List.map_cons, List.sum_cons, ih]
    simp [MacroBreakdown.mk.injEq]
    refine ⟨by ring, by ring, by ring, by ring⟩

/- Claim theorems. -/

/-- C1: for every upstream response, the gateway total of a successful
analyze result equals the element-wise sum of the four macro fields over
its items, each field read through the coerce-with-default-zero accessor,
so any externally supplied total is discarded; and on the two-item Rice and
Chicken example, whose upstream total disagrees, the returned total is kcal
365, protein 35, carbs 45, fat 5. -/
theorem c1_gateway_recomputes_total :
    (∀ (apiKey : Option String) (body : Option JsonVal) (up : Upstream)
        (r : NormalizedEstimate),
        POST apiKey body up = .ok r → r.total = specTotal r.items) ∧
      POST (some "sk-test") (some c1Body) (.json c1Parsed) =
        .ok { mealTitle := .jstr "Rice and chicken", items := c1Items,
              notes := none, confidence := none,
              total := { kcal := 365, protein := 35, carbs := 45, fat := 5 } } := by
  constructor
  · intro apiKey body up r h
    obtain ⟨b, parsed, hb, hup, hr⟩ := POST_eq_ok h
    subst hr
    simp [analyzeParsed, gatewayTotal_eq_specTotal]
  · have e1 : POST (some "sk-test") (some c1Body) (.json c1Parsed) =
        .ok (analyzeParsed c1Body c1Parsed) := rfl
    have e2 : analyzeParsed c1Body c1Parsed =
        { mealTitle := .jstr "Rice and chicken", items := c1Items, notes := none,
          confidence := none,
          total := ⟨0 + 200 + 165, 0 + 4 + 31, 0 + 45 + 0, 0 + 1 + 4⟩ } := rfl
    rw [e1, e2]
    norm_num [NormalizedEstimate.mk.injEq, MacroBreakdown.mk.injEq]

/-- Witness for c1_gateway_recomputes_total at the Rice and Chicken
example. -/
theorem c1_gateway_recomputes_total_witness :
    (analyzeParsed c1Body c1Parsed).total =
      specTotal (analyzeParsed c1Body c1Parsed).items :=
  c1_gateway_recomputes_total.1 (some "sk-test") (some c1Body) (.json c1Parsed)
    (analyzeParsed c1Body c1Parsed) rfl

/-- C2 counterexample: a successful gateway response whose returned item
list contains, verbatim, an item whose kcal field is a non-numeric string;
the claimed per-item replacement of non-coercible macro values by 0 does
not happen on the returned items. -/
theorem c2_counterexample_item_not_numeric :
    POST (some "sk-test") (some c2Body) (.json c2Parsed) =
      .ok (analyzeParsed c2Body c2Parsed) ∧
    (analyzeParsed c2Body c2Parsed).items = [c2Item] ∧
    (analyzeParsed c2Body c2Parsed).items.all itemNumericShape = false ∧
    hasNumField c2Item "kcal" = false :=
  ⟨rfl, rfl, rfl, rfl⟩

/-- C2 (amended): a parsed items field that is not a sequence is replaced
by the empty sequence, and otherwise the parsed items are returned
verbatim; the coercion of non-numeric macro values to 0 is applied only
while computing the returned total, not to the returned items themselves.
Concretely, a non-sequence items field yields an empty item list and an
all-zero total. -/
theorem c2_items_passthrough :
    (∀ (apiKey : Option String) (body : Option JsonVal) (parsed : JsonVal)
        (r : NormalizedEstimate),
        POST apiKey body (.json parsed) = .ok r →
        r.items = parsedItems parsed ∧ r.total = specTotal r.items) ∧
      POST (some "sk-test") (some c2Body) (.json c2BadItemsParsed) =
        .ok { mealTitle := .jstr "Toast", items := [], notes := none,
              confidence := none,
              total := { kcal := 0, protein := 0, carbs := 0, fat := 0 } } := by
  constructor
  · intro apiKey body parsed r h
    obtain ⟨b, parsed2, hb, hup, hr⟩ := POST_eq_ok h
    injection hup with hparsed
    subst hparsed
    subst hr
    exact ⟨rfl, by simp [analyzeParsed, gatewayTotal_eq_specTotal]⟩
  · rfl

/-- Witness for c2_items_passthrough at the malformed-item example. -/
theorem c2_items_passthrough_witness :
    (analyzeParsed c2Body c2Parsed).items = parsedItems c2Parsed ∧
    (analyzeParsed c2Body c2Parsed).total =
      specTotal (analyzeParsed c2Body c2Parsed).items :=
  c2_items_passthrough.1 (some "sk-test") (some c2Body) c2Parsed
    (analyzeParsed c2Body c2Parsed) rfl

/-- C3: on a successful gateway response the stored entry macros are the
reported total verbatim when that field is present, and otherwise the
element-wise sum over the reported items; in particular a response with an
empty item list and no total stores exactly the zero record. -/
theorem c3_client_macros_choice :
    (∀ (s : ClientState) (data : AnalyzeResponse) (hour : ℕ)
        (freshId nowTime : String) (t : MacroBreakdown),
        ¬(s.message = "" ∧ s.imagePreview.getD "" = "") → data.total = some t →
        lastEntryMacros (handleSubmit s (.success data) hour freshId nowTime)
          s.selectedDate = some t) ∧
    (∀ (s : ClientState) (data : AnalyzeResponse) (hour : ℕ)
        (freshId nowTime : String),
        ¬(s.message = "" ∧ s.imagePreview.getD "" = "") → data.total = none →
        lastEntryMacros (handleSubmit s (.success data) hour freshId nowTime)
          s.selectedDate = some (itemsMacroSum (data.items.getD []))) ∧
    (∀ (s : ClientState) (hour : ℕ) (freshId nowTime : String),
        ¬(s.message = "" ∧ s.imagePreview.getD "" = "") →
        lastEntryMacros
            (handleSubmit s (.success emptyItemsData) hour freshId nowTime)
            s.selectedDate =
          some { kcal := 0, protein := 0, carbs := 0, fat := 0 }) := by
  refine ⟨?_, ?_, ?_⟩
  · intro s data hour freshId nowTime t h ht
    simp [handleSubmit, h, lastEntryMacros, submittedEntry, ht]
  · intro s data hour freshId nowTime h ht
    simp [handleSubmit, h, lastEntryMacros, submittedEntry, ht,
      computeTotals_eq_itemsMacroSum]
  · intro s hour freshId nowTime h
    simp [handleSubmit, h, lastEntryMacros, submittedEntry, emptyItemsData,
      computeTotals]

/-- Witness for c3_client_macros_choice on a response carrying an explicit
total. -/
theorem c3_client_macros_choice_witness :
    lastEntryMacros (handleSubmit wState (.success wTotalData) 12 "id-3" "12:00")
        wState.selectedDate =
      some ⟨300, 30, 10, 9⟩ :=
  c3_client_macros_choice.1 wState wTotalData 12 "id-3" "12:00" ⟨300, 30, 10, 9⟩
    (by decide) rfl

/-- C4 counterexample: a validation failure (empty draft) sets the error
state but appends neither the pending user message nor the error message to
the chat transcript, so the transcript part of the claim fails on this
failure kind. -/
theorem c4_counterexample_validation_silent :
    (handleSubmit emptyDraftState (.fetchError "network down") 9 "id-4" "09:00").state.error =
      some "Add a photo or describe your meal first." ∧
    (handleSubmit emptyDraftState (.fetchError "network down") 9 "id-4" "09:00").state.chat =
      emptyDraftState.chat :=
  ⟨rfl, rfl⟩

/-- C4 (amended): on a network or gateway failure the day log is left
exactly unchanged, the pending user message and then the failure message
are appended to the transcript, and the failure message becomes the error
state; on a validation failure (empty draft) the day log and the
transcript are both left unchanged and only the error state is set. -/
theorem c4_failure_leaves_log :
    (∀ (s : ClientState) (msg : String) (hour : ℕ) (freshId nowTime : String),
        ¬(s.message = "" ∧ s.imagePreview.getD "" = "") →
        (handleSubmit s (.fetchError msg) hour freshId nowTime).state.historyByDate =
            s.historyByDate ∧
          (handleSubmit s (.fetchError msg) hour freshId nowTime).state.chat =
            s.chat ++ [userEcho s, ⟨.assistant, msg⟩] ∧
          (handleSubmit s (.fetchError msg) hour freshId nowTime).state.error =
            some msg) ∧
    (∀ (s : ClientState) (errField : Option String) (hour : ℕ)
        (freshId nowTime : String),
        ¬(s.message = "" ∧ s.imagePreview.getD "" = "") →
        (handleSubmit s (.httpError errField) hour freshId nowTime).state.historyByDate =
            s.historyByDate ∧
          (handleSubmit s (.httpError errField) hour freshId nowTime).state.chat =
            s.chat ++ [userEcho s, ⟨.assistant, httpErrMsg errField⟩] ∧
          (handleSubmit s (.httpError errField) hour freshId nowTime).state.error =
            some (httpErrMsg errField)) ∧
    (∀ (s : ClientState) (outcome : FetchOutcome) (hour : ℕ)
        (freshId nowTime : String),
        s.message = "" → s.imagePreview.getD "" = "" →
        (handleSubmit s outcome hour freshId nowTime).state.historyByDate =
            s.historyByDate ∧
          (handleSubmit s outcome hour freshId nowTime).state.chat = s.chat ∧
          (handleSubmit s outcome hour freshId nowTime).state.error =
            some "Add a photo or describe your meal first.") := by
  refine ⟨?_, ?_, ?_⟩
  · intro s msg hour freshId nowTime h
    refine ⟨?_, ?_, ?_⟩ <;> simp [handleSubmit, h]
  · intro s errField hour freshId nowTime h
    refine ⟨?_, ?_, ?_⟩ <;> simp [handleSubmit, h]
  · intro s outcome hour freshId nowTime h1 h2
    refine ⟨?_, ?_, ?_⟩ <;> simp [handleSubmit, h1, h2]

/-- Witness for c4_failure_leaves_log on a network failure with a nonempty
draft. -/
theorem c4_failure_leaves_log_witness :
    (handleSubmit wState (.fetchError "network down") 9 "id-4b" "09:00").state.error =
      some "network down" :=
  (c4_failure_leaves_log.1 wState "network down" 9 "id-4b" "09:00" (by decide)).2.2

/-- C5 counterexample: an upstream item with a negative kcal value passes
through the coercion unchanged, so the gateway-computed total has a
negative kcal field; non-negativity is not enforced anywhere. -/
theorem c5_counterexample_negative_total :
    gatewayTotalOf (POST (some "sk-test") (some c5Body) (.json c5Parsed)) =
      some (gatewayTotal (parsedItems c5Parsed)) ∧
    (gatewayTotal (parsedItems c5Parsed)).kcal < 0 := by
  refine ⟨rfl, ?_⟩
  have e : (gatewayTotal (parsedItems c5Parsed)).kcal = 0 + (-5) := rfl
  rw [e]
  norm_num

/-- C5 (amended): the gateway-computed total has all four fields
non-negative provided every item of the upstream list coerces to
non-negative values in all four macro fields, and the client day totals
have all four fields non-negative provided every logged entry has
non-negative macros; without those hypotheses either value can be
negative. -/
theorem c5_nonneg_totals :
    (∀ items : List JsonVal,
        (∀ it ∈ items, 0 ≤ itemMacro it "kcal" ∧ 0 ≤ itemMacro it "protein" ∧
          0 ≤ itemMacro it "carbs" ∧ 0 ≤ itemMacro it "fat") →
        0 ≤ (gatewayTotal items).kcal ∧ 0 ≤ (gatewayTotal items).protein ∧
          0 ≤ (gatewayTotal items).carbs ∧ 0 ≤ (gatewayTotal items).fat) ∧
    (∀ entries : List MealEntry,
        (∀ e ∈ entries, 0 ≤ e.macros.kcal ∧ 0 ≤ e.macros.protein ∧
          0 ≤ e.macros.carbs ∧ 0 ≤ e.macros.fat) →
        0 ≤ (totals entries).kcal ∧ 0 ≤ (totals entries).protein ∧
          0 ≤ (totals entries).carbs ∧ 0 ≤ (totals entries).fat) := by
  constructor
  · intro items h
    rw [gatewayTotal_eq_specTotal]
    simp only [specTotal]
    refine ⟨List.sum_nonneg ?_, List.sum_nonneg ?_, List.sum_nonneg ?_,
      List.sum_nonneg ?_⟩ <;> intro x hx
    · obtain ⟨it, hit, rfl⟩ := List.mem_map.1 hx
      exact (h it hit).1
    · obtain ⟨it, hit, rfl⟩ := List.mem_map.1 hx
      exact (h it hit).2.1
    · obtain ⟨it, hit, rfl⟩ := List.mem_map.1 hx
      exact (h it hit).2.2.1
    · obtain ⟨it, hit, rfl⟩ := List.mem_map.1 hx
      exact (h it hit).2.2.2
  · intro entries h
    simp only [totals, totals_go, zero_add]
    refine ⟨List.sum_nonneg ?_, List.sum_nonneg ?_, List.sum_nonneg ?_,
      List.sum_nonneg ?_⟩ <;> intro x hx
    · obtain ⟨e, he, rfl⟩ := List.mem_map.1 hx
      exact (h e he).1
    · obtain ⟨e, he, rfl⟩ := List.mem_map.1 hx
      exact (h e he).2.1
    · obtain ⟨e, he, rfl⟩ := List.mem_map.1 hx
      exact (h e he).2.2.1
    · obtain ⟨e, he, rfl⟩ := List.mem_map.1 hx
      exact (h e he).2.2.2

/-- Witness for c5_nonneg_totals on the Rice and Chicken item list. -/
theorem c5_nonneg_totals_witness :
    0 ≤ (gatewayTotal c1Items).kcal ∧ 0 ≤ (gatewayTotal c1Items).protein ∧
      0 ≤ (gatewayTotal c1Items).carbs ∧ 0 ≤ (gatewayTotal c1Items).fat :=
  c5_nonneg_totals.1 c1Items (by decide)

/-- C6: when both the description and the image preview are empty or
absent, the submission fails with the validation message as the error
state, no request is issued to the gateway, and the day log is left
unchanged. -/
theorem c6_empty_input_no_network :
    ∀ (s : ClientState) (outcome : FetchOutcome) (hour : ℕ)
      (freshId nowTime : String),
      s.message = "" → s.imagePreview.getD "" = "" →
      (handleSubmit s outcome hour freshId nowTime).calledGateway = false ∧
        (handleSubmit s outcome hour freshId nowTime).request = none ∧
        (handleSubmit s outcome hour freshId nowTime).state.error =
          some "Add a photo or describe your meal first." ∧
        (handleSubmit s outcome hour freshId nowTime).state.historyByDate =
          s.historyByDate := by
  intro s outcome hour freshId nowTime h1 h2
  refine ⟨?_, ?_, ?_, ?_⟩ <;> simp [handleSubmit, h1, h2]

/-- Witness for c6_empty_input_no_network on the empty draft state. -/
theorem c6_empty_input_no_network_witness :
    (handleSubmit emptyDraftState (.fetchError "never sent") 9 "id-6" "09:00").calledGateway =
        false ∧
      (handleSubmit emptyDraftState (.fetchError "never sent") 9 "id-6" "09:00").request =
        none ∧
      (handleSubmit emptyDraftState (.fetchError "never sent") 9 "id-6" "09:00").state.error =
        some "Add a photo or describe your meal first." ∧
      (handleSubmit emptyDraftState (.fetchError "never sent") 9 "id-6" "09:00").state.historyByDate =
        emptyDraftState.historyByDate :=
  c6_empty_input_no_network emptyDraftState (.fetchError "never sent") 9 "id-6" "09:00"
    rfl rfl

/-- C7: when the service credential is unset or empty, the gateway fails
with the configuration error, and the result does not depend on the
request body at all — the same error is returned even for a body that
could not be decoded, so the check precedes any parsing. -/
theorem c7_missing_credential_first :
    ∀ (apiKey : Option String) (body : Option JsonVal) (up : Upstream),
      apiKey.getD "" = "" →
      POST apiKey body up = .err 500 "OPENAI_API_KEY is not configured." ∧
        POST apiKey body up = POST apiKey none up := by
  intro apiKey body up h
  constructor <;> simp [POST, h]

/-- Witness for c7_missing_credential_first with no credential and an
undecodable body. -/
theorem c7_missing_credential_first_witness :
    POST none none .failure = .err 500 "OPENAI_API_KEY is not configured." ∧
      POST none none .failure = POST none none .failure :=
  c7_missing_credential_first none none .failure rfl

/-- C8: the derived meal label is determined by the hour of day with
half-open boundaries at 11, 15 and 18, and the four sample hours map to
Breakfast, Lunch, Snack and Dinner respectively. -/
theorem c8_meal_label_boundaries :
    (∀ hour : ℕ,
        (hour < 11 → guessMealLabel hour = "Breakfast") ∧
          (11 ≤ hour → hour < 15 → guessMealLabel hour = "Lunch") ∧
          (15 ≤ hour → hour < 18 → guessMealLabel hour = "Snack") ∧
          (18 ≤ hour → guessMealLabel hour = "Dinner")) ∧
      guessMealLabel 9 = "Breakfast" ∧ guessMealLabel 13 = "Lunch" ∧
        guessMealLabel 17 = "Snack" ∧ guessMealLabel 20 = "Dinner" := by
  refine ⟨?_, rfl, rfl, rfl, rfl⟩
  intro hour
  refine ⟨fun h => ?_, fun h1 h2 => ?_, fun h1 h2 => ?_, fun h => ?_⟩
  · simp [guessMealLabel, h]
  · rw [guessMealLabel, if_neg (by omega), if_pos h2]
  · rw [guessMealLabel, if_neg (by omega), if_neg (by omega), if_pos h2]
  · rw [guessMealLabel, if_neg (by omega), if_neg (by omega), if_neg (by omega)]

/-- Witness for c8_meal_label_boundaries at hour 13. -/
theorem c8_meal_label_boundaries_witness :
    guessMealLabel 13 = "Lunch" :=
  (c8_meal_label_boundaries.1 13).2.1 (by decide) (by decide)

/-- C9: a successful submission appends the new entry at the end of the
entry list of the selected date, leaving the prior entries and their order
intact, and leaves the entry list of every other date unchanged. -/
theorem c9_append_preserves_log :
    ∀ (s : ClientState) (data : AnalyzeResponse) (hour : ℕ)
      (freshId nowTime : String),
      ¬(s.message = "" ∧ s.imagePreview.getD "" = "") →
      (handleSubmit s (.success data) hour freshId nowTime).state.historyByDate
          s.selectedDate =
        s.historyByDate s.selectedDate ++ [submittedEntry s data hour freshId nowTime] ∧
        ∀ d, d ≠ s.selectedDate →
          (handleSubmit s (.success data) hour freshId nowTime).state.historyByDate d =
            s.historyByDate d := by
  intro s data hour freshId nowTime h
  constructor
  · simp [handleSubmit, h]
  · intro d hd
    simp [handleSubmit, h, hd]

/-- Witness for c9_append_preserves_log on a state whose selected date
already holds one entry. -/
theorem c9_append_preserves_log_witness :
    (handleSubmit seededState (.success wTotalData) 12 "id-9" "12:30").state.historyByDate
        seededState.selectedDate =
      seededState.historyByDate seededState.selectedDate ++
        [submittedEntry seededState wTotalData 12 "id-9" "12:30"] :=
  (c9_append_preserves_log seededState wTotalData 12 "id-9" "12:30" (by decide)).1

/-- C10: after every submission attempt the draft is reset — the
description is the empty string and the image preview is cleared — under
the reachability side condition that the preview is never the empty
string (in the source it is either null or a nonempty data URL).  On the
early validation return the fields are not written, but the guard forces
them to be empty already. -/
theorem c10_draft_cleared :
    ∀ (s : ClientState) (outcome : FetchOutcome) (hour : ℕ)
      (freshId nowTime : String),
      s.imagePreview ≠ some "" →
      (handleSubmit s outcome hour freshId nowTime).state.message = "" ∧
        (handleSubmit s outcome hour freshId nowTime).state.imagePreview = none := by
  intro s outcome hour freshId nowTime hp
  by_cases h : s.message = "" ∧ s.imagePreview.getD "" = ""
  · have hi : s.imagePreview = none := by
      cases hsi : s.imagePreview with
      | none => rfl
      | some v =>
        exfalso
        apply hp
        rw [hsi]
        have := h.2
        rw [hsi] at this
        simp at this
        rw [this]
    simp [handleSubmit, h, h.1, hi]
  · cases outcome <;> simp [handleSubmit, h]

/-- Witness for c10_draft_cleared on a failing submission with a nonempty
draft. -/
theorem c10_draft_cleared_witness :
    (handleSubmit wState (.fetchError "boom") 9 "id-10" "09:10").state.message = "" ∧
      (handleSubmit wState (.fetchError "boom") 9 "id-10" "09:10").state.imagePreview =
        none :=
  c10_draft_cleared wState (.fetchError "boom") 9 "id-10" "09:10" (by decide)

end CalorieTracker
